import Mathlib

/-!
Verification of the ouvrt daemon core (rift-dk2.c, ouvrtd.c) against its
natural-language specification.  The C code is shallowly embedded: machine
integers become `Nat`/`Int` with explicit wrapping where the C type forces
it, little/big-endian field extraction is done on explicit byte memories,
and the stateful multi-record enumeration loops become structural
recursions over the list of feature-report responses.
-/

namespace Ouvrt

/-- Two's complement reading of a 16-bit wire value, as done by the C casts
`(int16_t)__le16_to_cpu(x)`. -/
def sext16 (v : Nat) : Int :=
  if v < 2 ^ 15 then (v : Int) else (v : Int) - 2 ^ 16

/-- Two's complement reading of a 32-bit wire value, as done by the C casts
`(int32_t)__le32_to_cpu(x)`. -/
def sext32 (v : Nat) : Int :=
  if v < 2 ^ 31 then (v : Int) else (v : Int) - 2 ^ 32

/-- Arithmetic shift right by `k` of the signed reading of the 32-bit value
`v`, i.e. the C expression `(int32_t)v >> k`; an arithmetic shift floors,
which on `Int` is `Int.fdiv`. -/
def asr32 (v k : Nat) : Int :=
  (sext32 v).fdiv (2 ^ k)

/-- Big-endian 32-bit load from a byte memory, the C `__be32_to_cpup`. -/
def be32 (mem : Nat → Nat) (off : Nat) : Nat :=
  (mem off) <<< 24 ||| (mem (off + 1)) <<< 16 ||| (mem (off + 2)) <<< 8 ||| mem (off + 3)

/-- Little-endian 16-bit load from a byte memory, the C `__le16_to_cpu`. -/
def le16 (mem : Nat → Nat) (off : Nat) : Nat :=
  mem off ||| (mem (off + 1)) <<< 8

/-- Little-endian 32-bit load from a byte memory, the C `__le32_to_cpu`. -/
def le32 (mem : Nat → Nat) (off : Nat) : Nat :=
  mem off ||| (mem (off + 1)) <<< 8 ||| (mem (off + 2)) <<< 16 ||| (mem (off + 3)) <<< 24

/-! ## Report-rate negotiation (`rift_dk2_get_config`, `rift_dk2_set_report_rate`) -/

/-- The HMD codec's private state (`struct _OuvrtRiftDK2Private`):
`report_rate` and `report_interval` are C `int`s that only ever hold
nonnegative values, `last_sample_timestamp` is a `uint32_t`. -/
structure Dk2Priv where
  report_rate : Nat
  report_interval : Nat
  last_sample_timestamp : Nat
  deriving DecidableEq, Repr

/-- Embedding of `rift_dk2_get_config`: reads `sample_rate` (u16) and
`packet_interval` (u8) from the device's config feature report and derives
`report_rate = sample_rate / (packet_interval + 1)` and
`report_interval = 1000000 / report_rate` (C integer division). -/
def rift_dk2_get_config (priv : Dk2Priv) (sample_rate packet_interval : Nat) : Dk2Priv :=
  let report_rate := sample_rate / (packet_interval + 1)
  { priv with report_rate := report_rate, report_interval := 1000000 / report_rate }

/-- Clamping of the requested rate in `rift_dk2_set_report_rate`:
`if (report_rate > sample_rate) report_rate = sample_rate;`
`if (report_rate < 5) report_rate = 5;` with `report_rate` a C `int`. -/
def clampRate (sample_rate : Nat) (r : Int) : Nat :=
  let r1 : Int := if r > (sample_rate : Int) then (sample_rate : Int) else r
  (if r1 < 5 then 5 else r1).toNat

/-- Result of `rift_dk2_set_report_rate`: the `packet_interval` byte written
into the feature report sent to the device, and the updated private state. -/
structure SetRateResult where
  packet_interval_sent : Nat
  priv : Dk2Priv
  deriving DecidableEq, Repr

/-- Embedding of `rift_dk2_set_report_rate`: clamps the requested rate into
`[5, sample_rate]`, computes `packet_interval = sample_rate / report_rate - 1`
(C `int` arithmetic, then stored into the `__u8` report field, hence reduced
mod 256), and stores the clamped request and `1000000 / report_rate` in the
private state. -/
def rift_dk2_set_report_rate (priv : Dk2Priv) (sample_rate : Nat) (r : Int) : SetRateResult :=
  let rate := clampRate sample_rate r
  let pi_int : Int := ((sample_rate / rate : Nat) : Int) - 1
  { packet_interval_sent := (pi_int % 256).toNat,
    priv := { priv with report_rate := rate, report_interval := 1000000 / rate } }

/-! ## LED blink-pattern validation and compression (`rift_dk2_get_led_patterns`) -/

/-- The validity test `(pattern & ~0xaaaaa) != 0x55555` from
`rift_dk2_get_led_patterns`; on `uint32_t`, `~0xaaaaa = 0xfff55555`. -/
def pattern_valid (pattern : Nat) : Bool :=
  (pattern &&& 0xfff55555) == 0x55555

/-- The bit shuffle in `rift_dk2_get_led_patterns` converting ten 2-bit
symbols into 10 single-bit values, `1 -> 0, 3 -> 1`.  All intermediate
values shrink, so `uint32_t` arithmetic never wraps and plain `Nat`
operations are exact. -/
def pattern_compress (pattern : Nat) : Nat :=
  let p0 := pattern &&& 0xaaaaa
  let p1 := (p0 ||| (p0 >>> 1)) &&& 0x66666
  let p2 := (p1 ||| (p1 >>> 2)) &&& 0xe1e1e
  let p3 := (p2 ||| (p2 >>> 4)) &&& 0xe01fe
  let p4 := p3 ||| (p3 >>> 8)
  (p4 >>> 1) &&& 0x3ff

/-! ## Factory position / LED pattern enumeration state -/

/-- The `vec3` float vector of the C code, embedded with exact rational
components (the fixed-point scalings 1e-6, 1e-4, 0.01 become exact
rational multiplications). -/
structure vec3 where
  x : ℚ
  y : ℚ
  z : ℚ
  deriving DecidableEq, Repr

def vec3.zero : vec3 := ⟨0, 0, 0⟩

/-- One response of the position feature report (`struct
rift_dk2_position_report`), with the multi-byte fields already read
little-endian as raw unsigned values. -/
structure PositionReport where
  pos0 : Nat
  pos1 : Nat
  pos2 : Nat
  dir0 : Nat
  dir1 : Nat
  dir2 : Nat
  index : Nat
  num : Nat
  type : Nat
  deriving DecidableEq, Repr

/-- One response of the LED pattern feature report (`struct
rift_dk2_led_pattern_report`). -/
structure LedPatternReport where
  pattern_length : Nat
  pattern : Nat
  index : Nat
  num : Nat
  deriving DecidableEq, Repr

/-- The device state mutated by the two enumerations: the LED table
(`rift->leds`) and the IMU position (`rift->imu.position`). -/
structure RiftState where
  led_positions : Nat → vec3
  led_directions : Nat → vec3
  led_patterns : Nat → Nat
  leds_num : Nat
  imu_position : vec3

def RiftState.init : RiftState :=
  { led_positions := fun _ => vec3.zero,
    led_directions := fun _ => vec3.zero,
    led_patterns := fun _ => 0,
    leds_num := 0,
    imu_position := vec3.zero }

/-- The state update of one iteration of the `rift_dk2_get_positions` loop
body (after the index check): position scaled by 1e-6 from signed 32-bit
micrometers; on `type == 0` the LED position and the direction (scaled by
1e-6 from signed 16-bit) are stored, on `type == 1` the IMU position.
The C local `uint8_t type` truncates the 16-bit wire field. -/
def applyPosReport (st : RiftState) (r : PositionReport) : RiftState :=
  let type := r.type % 256
  let pos : vec3 := ⟨(sext32 r.pos0 : ℚ) * (1 / 1000000),
                     (sext32 r.pos1 : ℚ) * (1 / 1000000),
                     (sext32 r.pos2 : ℚ) * (1 / 1000000)⟩
  if type = 0 then
    let dir : vec3 := ⟨(sext16 r.dir0 : ℚ) * (1 / 1000000),
                       (sext16 r.dir1 : ℚ) * (1 / 1000000),
                       (sext16 r.dir2 : ℚ) * (1 / 1000000)⟩
    { st with
      led_positions := fun i => if i = r.index then pos else st.led_positions i,
      led_directions := fun i => if i = r.index then dir else st.led_directions i }
  else if type = 1 then
    { st with imu_position := pos }
  else
    st

/-- The `for (i = 0; ; i++)` loop of `rift_dk2_get_positions` over the
remaining feature-report responses.  `num` is fixed from the first
response.  Returns the (possibly partially updated) state and `true` for
success, `false` for the `-1` error returns (malformed index, or a failed
`hid_get_feature_report` modelled as running out of responses). -/
def positionsLoop (num : Nat) (st : RiftState) (i : Nat) :
    List PositionReport → RiftState × Bool
  | [] => (st, false)
  | r :: rest =>
    if num ≤ r.index then (st, false)
    else
      let st' := applyPosReport st r
      if i + 1 = num then (st', true)
      else positionsLoop num st' (i + 1) rest

/-- Embedding of `rift_dk2_get_positions`: the list holds the successive
responses returned by `hid_get_feature_report`; `maxPositions` is the
`MAX_POSITIONS` bound checked against `num`.  On success the LED count is
set to `num - 1`. -/
def rift_dk2_get_positions (maxPositions : Nat) (st : RiftState) :
    List PositionReport → RiftState × Bool
  | [] => (st, false)
  | r :: rest =>
    let num := r.num
    if maxPositions < num then (st, false)
    else
      let res := positionsLoop num st 0 (r :: rest)
      if res.2 then ({ res.1 with leds_num := num - 1 }, true) else res

/-- The state update of one iteration of the `rift_dk2_get_led_patterns`
loop body (after the checks): the compressed 10-bit signature is stored at
the embedded index. -/
def applyPatternReport (st : RiftState) (r : LedPatternReport) : RiftState :=
  { st with
    led_patterns := fun j =>
      if j = r.index then pattern_compress r.pattern else st.led_patterns j }

/-- The loop of `rift_dk2_get_led_patterns`: checks the index against the
count, requires `pattern_length == 10` and a valid pattern, and stores the
compressed 10-bit signature at the embedded index. -/
def patternsLoop (num : Nat) (st : RiftState) (i : Nat) :
    List LedPatternReport → RiftState × Bool
  | [] => (st, false)
  | r :: rest =>
    if num ≤ r.index then (st, false)
    else if r.pattern_length ≠ 10 then (st, false)
    else if ¬ pattern_valid r.pattern then (st, false)
    else
      let st' := applyPatternReport st r
      if i + 1 = num then (st', true)
      else patternsLoop num st' (i + 1) rest

/-- Embedding of `rift_dk2_get_led_patterns`; `maxLeds` is the `MAX_LEDS`
bound checked against `num`. -/
def rift_dk2_get_led_patterns (maxLeds : Nat) (st : RiftState) :
    List LedPatternReport → RiftState × Bool
  | [] => (st, false)
  | r :: rest =>
    let num := r.num
    if maxLeds < num then (st, false)
    else patternsLoop num st 0 (r :: rest)

/-! ## Periodic sensor message decode (`rift_dk2_decode_sensor_message`) -/

/-- Embedding of `unpack_3x21bit` exactly as written: the parameter is a
`__be64 *`, so the C expression `(__be32 *)(buf + 4)` advances the pointer
by `4 * sizeof(__be64) = 32` bytes, not 4.  `mem` is the surrounding byte
memory and `off` the byte offset of the 8-byte field `buf` points to; the
second half-word is therefore loaded from `off + 32`.  The three fields
are recovered with `uint32_t` shifts (which wrap mod `2^32`) and signed
arithmetic shifts, then scaled by 1e-4. -/
def unpack_3x21bit (mem : Nat → Nat) (off : Nat) : vec3 :=
  let xy := be32 mem off
  let yz := be32 mem (off + 32)
  ⟨(asr32 xy 11 : ℚ) * (1 / 10000),
   (asr32 (((xy <<< 21) % 2 ^ 32) ||| (yz >>> 11)) 11 : ℚ) * (1 / 10000),
   (asr32 ((yz <<< 10) % 2 ^ 32) 11 : ℚ) * (1 / 10000)⟩

/-- Modelled from the spec: the behaviour `unpack_3x21bit` is documented to
have ("Unpacks three big-endian signed 21-bit values packed into 8 bytes"),
which the code misses because of the `__be64 *` pointer arithmetic — the
second 32-bit half-word is the one at byte offset `off + 4`, inside the
8-byte field. -/
def unpack_3x21bit_fixed (mem : Nat → Nat) (off : Nat) : vec3 :=
  let xy := be32 mem off
  let yz := be32 mem (off + 4)
  ⟨(asr32 xy 11 : ℚ) * (1 / 10000),
   (asr32 (((xy <<< 21) % 2 ^ 32) ||| (yz >>> 11)) 11 : ℚ) * (1 / 10000),
   (asr32 ((yz <<< 10) % 2 ^ 32) 11 : ℚ) * (1 / 10000)⟩

/-- Outputs of one `rift_dk2_decode_sensor_message` call: the updated
private state, the number of timing-drift log lines printed, the decoded
sample fields shared by the emitted IMU samples, and the emitted
acceleration/angular-velocity pairs (one `debug_imu_fifo_in` call each). -/
structure DecodeResult where
  priv : Dk2Priv
  drift_logs : Nat
  temperature : ℚ
  time : ℚ
  magnetic_field : vec3
  samples : List (vec3 × vec3)
  deriving DecidableEq

/-- Embedding of `rift_dk2_decode_sensor_message` over the raw 64-byte
interrupt report (`msg` maps byte offsets to byte values, `len` is the
`read` length).  Messages shorter than `sizeof(struct
rift_dk2_sensor_message) = 64` are dropped.  Field offsets follow the
packed struct layout: `num_samples` at 3, `temperature` at 6,
`timestamp` at 8, `sample[i].accel` at `12 + 16 i`, `sample[i].gyro` at
`20 + 16 i`, `mag` at 44.  `dt` is the `uint32_t` difference of the
timestamps read as an `int32_t`. -/
def rift_dk2_decode_sensor_message (priv : Dk2Priv) (msg : Nat → Nat) (len : Nat) :
    Option DecodeResult :=
  if len < 64 then none
  else
    let num_samples := msg 3
    let temperature := sext16 (le16 msg 6)
    let sample_timestamp := le32 msg 8
    let dt : Int := sext32 ((sample_timestamp + 2 ^ 32 - priv.last_sample_timestamp % 2 ^ 32) % 2 ^ 32)
    let drift_logs :=
      if dt < (priv.report_interval : Int) - 1 ∨ (priv.report_interval : Int) + 1 < dt ∨
          1000 * (num_samples : Int) ≠ (priv.report_interval : Int) then 1 else 0
    let decoded_count := if 1 < num_samples then 2 else 1
    some
      { priv := { priv with last_sample_timestamp := sample_timestamp },
        drift_logs := drift_logs,
        temperature := (temperature : ℚ) * (1 / 100),
        time := (sample_timestamp : ℚ) * (1 / 1000000),
        magnetic_field := ⟨(sext16 (le16 msg 44) : ℚ) * (1 / 10000),
                           (sext16 (le16 msg 46) : ℚ) * (1 / 10000),
                           (sext16 (le16 msg 48) : ℚ) * (1 / 10000)⟩,
        samples := (List.range decoded_count).map fun i =>
          (unpack_3x21bit msg (12 + 16 * i), unpack_3x21bit msg (20 + 16 * i)) }

/-! ## Worker loop (`rift_dk2_thread`) -/

/-- Outcome of the `read` call in one worker-loop iteration. -/
inductive ReadResult where
  | rerr : ReadResult
  | rdata : Nat → ReadResult
  deriving DecidableEq, Repr

/-- Outcome of the `poll` call in one worker-loop iteration: error (`-1`),
timeout (`0`), or readable with the subsequent read outcome. -/
inductive WorkerEvent where
  | pollError : WorkerEvent
  | pollTimeout : WorkerEvent
  | ready : ReadResult → WorkerEvent
  deriving DecidableEq, Repr

/-- Effects of one iteration of the `while (dev->active)` loop in
`rift_dk2_thread`. -/
structure IterResult where
  keepalive : Bool
  logged : Bool
  decoded : Bool
  new_count : Nat
  broke : Bool
  deriving DecidableEq, Repr

/-- Embedding of one iteration of the worker loop of `rift_dk2_thread`:
on poll error/timeout, or when the decoded-report counter exceeds
`9 * report_rate`, a keepalive is sent and the counter reset; otherwise
(the `fds.events & (POLLERR | POLLHUP | POLLNVAL)` test is constant false
since `fds.events == POLLIN`) a read error or a short (< 64 byte) report
is logged and skipped without keepalive, and a full-size report is decoded
and counted. -/
def rift_dk2_thread_iter (report_rate : Nat) (count : Nat) (ev : WorkerEvent) : IterResult :=
  let keepaliveRes : IterResult :=
    { keepalive := true, logged := false, decoded := false, new_count := 0, broke := false }
  match ev with
  | .pollError => keepaliveRes
  | .pollTimeout => keepaliveRes
  | .ready r =>
    if 9 * report_rate < count then keepaliveRes
    else if ((1 : Nat) &&& (8 ||| 16 ||| 32)) ≠ 0 then
      { keepalive := false, logged := false, decoded := false, new_count := count, broke := true }
    else match r with
      | .rerr =>
        { keepalive := false, logged := true, decoded := false, new_count := count, broke := false }
      | .rdata len =>
        if len < 64 then
          { keepalive := false, logged := true, decoded := false, new_count := count, broke := false }
        else
          { keepalive := false, logged := false, decoded := true, new_count := count + 1,
            broke := false }

/-! ## Device registry and serial correlation (`ouvrtd_device_add`) -/

/-- Device kinds relevant to the camera/HMD correlation
(`OUVRT_IS_RIFT_DK2` / `OUVRT_IS_CAMERA_DK2` type checks). -/
inductive DeviceKind where
  | riftDK2 : DeviceKind
  | cameraDK2 : DeviceKind
  | otherKind : DeviceKind
  deriving DecidableEq, Repr

/-- A registered device instance: kind tag, optional serial, tracker
handle (an id standing for the shared `OuvrtTracker *`), and device node
(an id standing for the devnode path, used as identity for in-place
mutation of a registry entry). -/
structure OuvrtDevice where
  kind : DeviceKind
  serial : Option Nat
  tracker : Nat
  devnode : Nat
  deriving DecidableEq, Repr

/-- Embedding of the serial-correlation part of `ouvrtd_device_add`: if the
new device has a serial and the registry holds a device with the same
serial (`g_list_find_custom`), and the two are a camera/HMD pair in either
order, the camera's tracker handle is overwritten with the rift's
(`camera->v4l2.camera.tracker = rift->tracker`); the new device is then
appended (`g_list_append`). -/
def ouvrtd_device_add (registry : List OuvrtDevice) (d : OuvrtDevice) : List OuvrtDevice :=
  match d.serial with
  | none => registry ++ [d]
  | some s =>
    match registry.find? (fun e => e.serial == some s) with
    | none => registry ++ [d]
    | some e =>
      if d.kind = .riftDK2 ∧ e.kind = .cameraDK2 then
        (registry.map fun x =>
          if x.devnode = e.devnode then { x with tracker := d.tracker } else x) ++ [d]
      else if d.kind = .cameraDK2 ∧ e.kind = .riftDK2 then
        registry ++ [{ d with tracker := e.tracker }]
      else registry ++ [d]

/-! ## Concrete inputs used by counterexamples and witnesses -/

/-- A position record of type 1 (IMU) at index 0 of 2, with position
(1 m, 0, 0) in micrometers. -/
def posReportImu : PositionReport :=
  { pos0 := 1000000, pos1 := 0, pos2 := 0, dir0 := 0, dir1 := 0, dir2 := 0,
    index := 0, num := 2, type := 1 }

/-- A malformed position record: embedded index 5 with a reported count of 2. -/
def posReportBad : PositionReport :=
  { pos0 := 0, pos1 := 0, pos2 := 0, dir0 := 0, dir1 := 0, dir2 := 0,
    index := 5, num := 2, type := 0 }

/-- A single LED position record (type 0, index 0 of 1) whose first
direction field holds the raw value 10000. -/
def posReportDir : PositionReport :=
  { pos0 := 0, pos1 := 0, pos2 := 0, dir0 := 10000, dir1 := 0, dir2 := 0,
    index := 0, num := 1, type := 0 }

/-- A 64-byte sensor message whose `sample[0].accel` field (bytes 12..19)
holds the big-endian packing of the signed 21-bit triple
(1234, −5678, 9) and whose remaining bytes are zero. -/
def accelMsg (i : Nat) : Nat :=
  if i < 12 then 0 else [0, 38, 151, 250, 116, 128, 0, 18].getD (i - 12) 0

/-- A 64-byte sensor message claiming 2 samples (byte 3) with device-clock
timestamp 2000 (bytes 8..11, little-endian) and all other bytes zero. -/
def driftMsg (i : Nat) : Nat :=
  if i = 3 then 2 else if i = 8 then 208 else if i = 9 then 7 else 0

/-! ## Theorems -/

/-- C9: for every pair of devices carrying the same serial where one is
tagged camera and the other HMD, after both add events have been processed
both devices reference the identical tracker handle (the rift's),
regardless of which of the two was added first. -/
theorem C9_tracker_shared_order_independent (s t1 t2 n1 n2 : Nat) :
    ((ouvrtd_device_add (ouvrtd_device_add [] ⟨.riftDK2, some s, t1, n1⟩)
        ⟨.cameraDK2, some s, t2, n2⟩).map OuvrtDevice.tracker = [t1, t1]) ∧
    ((ouvrtd_device_add (ouvrtd_device_add [] ⟨.cameraDK2, some s, t2, n2⟩)
        ⟨.riftDK2, some s, t1, n1⟩).map OuvrtDevice.tracker = [t1, t1]) := by
  simp [ouvrtd_device_add, List.find?]

/-- C10: for every full-size periodic sensor message the decoder emits
exactly `min(claimed, 2)` IMU samples when the header claims one or more
samples, and exactly one sample when it claims zero; at least one
acceleration/angular-velocity pair is always emitted.  Short messages are
dropped. -/
theorem C10_sample_count_clamped (priv : Dk2Priv) (msg : Nat → Nat) (len : Nat)
    (hlen : 64 ≤ len) :
    ∃ res, rift_dk2_decode_sensor_message priv msg len = some res ∧
      res.samples.length = (if 1 ≤ msg 3 then min (msg 3) 2 else 1) ∧
      1 ≤ res.samples.length := by
  rw [rift_dk2_decode_sensor_message, if_neg (by omega)]
  refine ⟨_, rfl, ?_, ?_⟩
  · simp only [List.length_map, List.length_range]
    rcases Nat.lt_or_ge 1 (msg 3) with h | h
    · rw [if_pos h, if_pos (by omega)]
      omega
    · rw [if_neg (by omega)]
      rcases Nat.eq_zero_or_pos (msg 3) with h0 | h0
      · rw [h0]; rfl
      · rw [if_pos (by omega)]; omega
  · simp only [List.length_map, List.length_range]
    split <;> omega

/-- Closed witness for C10 at a concrete all-zero message. -/
theorem C10_sample_count_clamped_witness :
    ∃ res, rift_dk2_decode_sensor_message ⟨500, 2000, 0⟩ (fun _ => 0) 64 = some res ∧
      res.samples.length = (if 1 ≤ (fun _ : Nat => 0) 3 then min ((fun _ : Nat => 0) 3) 2 else 1) ∧
      1 ≤ res.samples.length :=
  C10_sample_count_clamped ⟨500, 2000, 0⟩ (fun _ => 0) 64 (by norm_num)

/-- C7 is corrected: a read error in the worker loop does NOT trigger a
keepalive resend (it is logged and the loop continues); only a poll
timeout or poll error does.  This closed counterexample evaluates one
iteration on a read error and on a poll timeout. -/
theorem C7_counterexample :
    (rift_dk2_thread_iter 500 0 (.ready .rerr)).keepalive = false ∧
    (rift_dk2_thread_iter 500 0 .pollTimeout).keepalive = true := by
  decide

/-- C7 amended: in every worker-loop iteration, a poll timeout or poll
error triggers a keepalive resend and the loop continues with the counter
reset; a read error is logged and skipped without keepalive; a short
report (< 64 bytes) is logged and discarded without keepalive; a
full-size report is decoded and counted; and once the counter exceeds
`9 * report_rate` a proactive keepalive is resent even without errors. -/
theorem C7_amended (rr count len : Nat) (r : ReadResult) :
    (rift_dk2_thread_iter rr count .pollError =
      ⟨true, false, false, 0, false⟩) ∧
    (rift_dk2_thread_iter rr count .pollTimeout =
      ⟨true, false, false, 0, false⟩) ∧
    (count ≤ 9 * rr → rift_dk2_thread_iter rr count (.ready .rerr) =
      ⟨false, true, false, count, false⟩) ∧
    (count ≤ 9 * rr → len < 64 → rift_dk2_thread_iter rr count (.ready (.rdata len)) =
      ⟨false, true, false, count, false⟩) ∧
    (count ≤ 9 * rr → 64 ≤ len → rift_dk2_thread_iter rr count (.ready (.rdata len)) =
      ⟨false, false, true, count + 1, false⟩) ∧
    (9 * rr < count → rift_dk2_thread_iter rr count (.ready r) =
      ⟨true, false, false, 0, false⟩) := by
  refine ⟨rfl, rfl, ?_, ?_, ?_, ?_⟩
  · intro h
    simp [rift_dk2_thread_iter, Nat.not_lt.mpr h]
  · intro h hlen
    simp [rift_dk2_thread_iter, Nat.not_lt.mpr h, hlen]
  · intro h hlen
    simp [rift_dk2_thread_iter, Nat.not_lt.mpr h, Nat.not_lt.mpr hlen]
  · intro h
    simp [rift_dk2_thread_iter, h]

/-- Closed witness for C7 amended, exercising each iteration kind at
concrete inputs. -/
theorem C7_amended_witness :
    (rift_dk2_thread_iter 500 7 (.ready .rerr) = ⟨false, true, false, 7, false⟩) ∧
    (rift_dk2_thread_iter 500 7 (.ready (.rdata 10)) = ⟨false, true, false, 7, false⟩) ∧
    (rift_dk2_thread_iter 500 7 (.ready (.rdata 64)) = ⟨false, false, true, 8, false⟩) ∧
    (rift_dk2_thread_iter 500 4501 (.ready (.rdata 64)) = ⟨true, false, false, 0, false⟩) :=
  ⟨(C7_amended 500 7 10 .rerr).2.2.1 (by norm_num),
   (C7_amended 500 7 10 .rerr).2.2.2.1 (by norm_num) (by norm_num),
   (C7_amended 500 7 64 .rerr).2.2.2.2.1 (by norm_num) (by norm_num),
   (C7_amended 500 4501 64 (.rdata 64)).2.2.2.2.2 (by norm_num)⟩

/-- Auxiliary: the clamped requested rate lies in `[r, n / (n / r)]`,
first half: `r ≤ n / (n / r)` for `0 < r ≤ n`. -/
theorem le_div_div_self (n r : Nat) (h1 : 0 < r) (h2 : r ≤ n) : r ≤ n / (n / r) := by
  have hq0 : 0 < n / r := Nat.div_pos h2 h1
  rw [Nat.le_div_iff_mul_le hq0, Nat.mul_comm]
  exact Nat.div_mul_le_self n r

/-- Auxiliary: integer division by `n` is idempotent on values of the form
`n / r`, i.e. `n / (n / (n / r)) = n / r` for `0 < r ≤ n`. -/
theorem div_div_div_self (n r : Nat) (h1 : 0 < r) (h2 : r ≤ n) :
    n / (n / (n / r)) = n / r := by
  have hq0 : 0 < n / r := Nat.div_pos h2 h1
  have ha0 : 0 < n / (n / r) := Nat.div_pos (Nat.div_le_self n r) hq0
  apply Nat.le_antisymm
  · exact Nat.div_le_div_left (le_div_div_self n r h1 h2) h1
  · rw [Nat.le_div_iff_mul_le ha0, Nat.mul_comm]
    exact Nat.div_mul_le_self n (n / r)

/-- Auxiliary: for `5 ≤ n` the clamped rate is in `[5, n]`. -/
theorem clampRate_mem (n : Nat) (r : Int) (hn : 5 ≤ n) :
    5 ≤ clampRate n r ∧ clampRate n r ≤ n := by
  simp only [clampRate]
  split_ifs <;> constructor <;> omega

/-- C1 is corrected: `rift_dk2_set_report_rate` stores the CLAMPED
REQUESTED rate, not the achieved rate `sample_rate / (packet_interval+1)`.
At `sample_rate = 1000` and requested rate 300, the computed
`packet_interval` is 2, the achieved rate is `1000 / 3 = 333`, but the
state stores 300. -/
theorem C1_counterexample :
    (rift_dk2_set_report_rate ⟨0, 0, 0⟩ 1000 300).priv.report_rate = 300 ∧
    (rift_dk2_set_report_rate ⟨0, 0, 0⟩ 1000 300).packet_interval_sent = 2 ∧
    1000 / ((rift_dk2_set_report_rate ⟨0, 0, 0⟩ 1000 300).packet_interval_sent + 1) = 333 ∧
    (rift_dk2_set_report_rate ⟨0, 0, 0⟩ 1000 300).priv.report_rate ≠
      1000 / ((rift_dk2_set_report_rate ⟨0, 0, 0⟩ 1000 300).packet_interval_sent + 1) := by
  decide

/-- C1 amended: for `sample_rate ≥ 5`, `set_report_rate` clamps the
request into `[5, sample_rate]`, computes `packet_interval =
sample_rate/rate − 1` by integer division, and stores the clamped
requested rate — which may differ from the achieved rate.  Whenever the
interval fits the u8 report field (`sample_rate/rate ≤ 256`), re-querying
the configuration yields an achieved rate in `[5, sample_rate]` and
`packet_interval = sample_rate/achieved_rate − 1` exactly. -/
theorem C1_amended (priv : Dk2Priv) (n : Nat) (r : Int) (hn : 5 ≤ n) :
    5 ≤ (rift_dk2_set_report_rate priv n r).priv.report_rate ∧
    (rift_dk2_set_report_rate priv n r).priv.report_rate ≤ n ∧
    (rift_dk2_set_report_rate priv n r).priv.report_rate = clampRate n r ∧
    (n / clampRate n r ≤ 256 →
      (rift_dk2_set_report_rate priv n r).packet_interval_sent = n / clampRate n r - 1 ∧
      5 ≤ (rift_dk2_get_config priv n
            (rift_dk2_set_report_rate priv n r).packet_interval_sent).report_rate ∧
      (rift_dk2_get_config priv n
            (rift_dk2_set_report_rate priv n r).packet_interval_sent).report_rate ≤ n ∧
      (rift_dk2_set_report_rate priv n r).packet_interval_sent =
        n / (rift_dk2_get_config priv n
              (rift_dk2_set_report_rate priv n r).packet_interval_sent).report_rate - 1) := by
  obtain ⟨h5, hle⟩ := clampRate_mem n r hn
  have hq0 : 0 < n / clampRate n r := Nat.div_pos hle (by omega)
  have hsent : (rift_dk2_set_report_rate priv n r).priv.report_rate = clampRate n r := rfl
  refine ⟨by rw [hsent]; exact h5, by rw [hsent]; exact hle, hsent, ?_⟩
  intro hfit
  have hpi : (rift_dk2_set_report_rate priv n r).packet_interval_sent = n / clampRate n r - 1 := by
    show ((((n / clampRate n r : Nat) : Int) - 1) % 256).toNat = n / clampRate n r - 1
    omega
  have hach : (rift_dk2_get_config priv n
      (rift_dk2_set_report_rate priv n r).packet_interval_sent).report_rate =
      n / (n / clampRate n r) := by
    show n / ((rift_dk2_set_report_rate priv n r).packet_interval_sent + 1) = _
    rw [hpi]
    congr 1
    omega
  refine ⟨hpi, ?_, ?_, ?_⟩
  · rw [hach]
    exact le_trans h5 (le_div_div_self n (clampRate n r) (by omega) hle)
  · rw [hach]
    exact Nat.div_le_self n _
  · rw [hach, hpi, div_div_div_self n (clampRate n r) (by omega) hle]

/-- Closed witness for C1 amended at `sample_rate = 1000`, request 300. -/
theorem C1_amended_witness :
    5 ≤ (rift_dk2_set_report_rate ⟨0, 0, 0⟩ 1000 300).priv.report_rate ∧
    (rift_dk2_set_report_rate ⟨0, 0, 0⟩ 1000 300).priv.report_rate ≤ 1000 ∧
    (rift_dk2_set_report_rate ⟨0, 0, 0⟩ 1000 300).priv.report_rate = clampRate 1000 300 ∧
    (1000 / clampRate 1000 300 ≤ 256 →
      (rift_dk2_set_report_rate ⟨0, 0, 0⟩ 1000 300).packet_interval_sent =
        1000 / clampRate 1000 300 - 1 ∧
      5 ≤ (rift_dk2_get_config ⟨0, 0, 0⟩ 1000
            (rift_dk2_set_report_rate ⟨0, 0, 0⟩ 1000 300).packet_interval_sent).report_rate ∧
      (rift_dk2_get_config ⟨0, 0, 0⟩ 1000
            (rift_dk2_set_report_rate ⟨0, 0, 0⟩ 1000 300).packet_interval_sent).report_rate ≤ 1000 ∧
      (rift_dk2_set_report_rate ⟨0, 0, 0⟩ 1000 300).packet_interval_sent =
        1000 / (rift_dk2_get_config ⟨0, 0, 0⟩ 1000
              (rift_dk2_set_report_rate ⟨0, 0, 0⟩ 1000 300).packet_interval_sent).report_rate - 1) :=
  C1_amended ⟨0, 0, 0⟩ 1000 300 (by norm_num)

/-- C8 is corrected: `rift_dk2_get_config` does not clamp, so the stored
`report_rate` can fall below 5.  With device-reported `sample_rate = 1000`
and `packet_interval = 255`, the stored rate is `1000 / 256 = 3`. -/
theorem C8_counterexample :
    (rift_dk2_get_config ⟨0, 0, 0⟩ 1000 255).report_rate = 3 ∧
    ¬ 5 ≤ (rift_dk2_get_config ⟨0, 0, 0⟩ 1000 255).report_rate := by
  decide

/-- C8 amended: after `set_report_rate` with `sample_rate ≥ 5` the stored
rate is in `[5, sample_rate]` and the stored interval is
`1000000 / report_rate`; after `get_config` the stored interval is
`1000000 / report_rate` whenever the derived rate is nonzero, but the
derived rate `sample_rate / (packet_interval + 1)` need not lie in
`[5, sample_rate]`. -/
theorem C8_amended (priv : Dk2Priv) (n : Nat) (r : Int) (pi : Nat) (hn : 5 ≤ n) :
    (5 ≤ (rift_dk2_set_report_rate priv n r).priv.report_rate ∧
     (rift_dk2_set_report_rate priv n r).priv.report_rate ≤ n ∧
     (rift_dk2_set_report_rate priv n r).priv.report_interval =
       1000000 / (rift_dk2_set_report_rate priv n r).priv.report_rate) ∧
    ((rift_dk2_get_config priv n pi).report_rate = n / (pi + 1) ∧
     (0 < n / (pi + 1) →
       (rift_dk2_get_config priv n pi).report_interval =
         1000000 / (rift_dk2_get_config priv n pi).report_rate)) := by
  obtain ⟨h5, hle⟩ := clampRate_mem n r hn
  exact ⟨⟨h5, hle, rfl⟩, rfl, fun _ => rfl⟩

/-- Closed witness for C8 amended at `sample_rate = 1000`, request 500,
`packet_interval = 1`. -/
theorem C8_amended_witness :
    (5 ≤ (rift_dk2_set_report_rate ⟨0, 0, 0⟩ 1000 500).priv.report_rate ∧
     (rift_dk2_set_report_rate ⟨0, 0, 0⟩ 1000 500).priv.report_rate ≤ 1000 ∧
     (rift_dk2_set_report_rate ⟨0, 0, 0⟩ 1000 500).priv.report_interval =
       1000000 / (rift_dk2_set_report_rate ⟨0, 0, 0⟩ 1000 500).priv.report_rate) ∧
    ((rift_dk2_get_config ⟨0, 0, 0⟩ 1000 1).report_rate = 1000 / (1 + 1) ∧
     (0 < 1000 / (1 + 1) →
       (rift_dk2_get_config ⟨0, 0, 0⟩ 1000 1).report_interval =
         1000000 / (rift_dk2_get_config ⟨0, 0, 0⟩ 1000 1).report_rate)) :=
  C8_amended ⟨0, 0, 0⟩ 1000 500 1 (by norm_num)

/-- Unfolding of one `positionsLoop` iteration. -/
theorem positionsLoop_cons (num i : Nat) (st : RiftState) (r : PositionReport)
    (rest : List PositionReport) :
    positionsLoop num st i (r :: rest) =
      if num ≤ r.index then (st, false)
      else if i + 1 = num then (applyPosReport st r, true)
      else positionsLoop num (applyPosReport st r) (i + 1) rest := rfl

/-- Unfolding of one `patternsLoop` iteration. -/
theorem patternsLoop_cons (num i : Nat) (st : RiftState) (r : LedPatternReport)
    (rest : List LedPatternReport) :
    patternsLoop num st i (r :: rest) =
      if num ≤ r.index then (st, false)
      else if r.pattern_length ≠ 10 then (st, false)
      else if ¬ pattern_valid r.pattern then (st, false)
      else if i + 1 = num then (applyPatternReport st r, true)
      else patternsLoop num (applyPatternReport st r) (i + 1) rest := rfl

/-- C4 is corrected: an out-of-range embedded index does abort the whole
enumeration, but records retrieved in earlier iterations have already been
applied to the device state.  With a first record (type 1, index 0 of 2)
carrying position 1 m and a second record with index 5 ≥ 2, the
enumeration fails yet the IMU position has been updated. -/
theorem C4_counterexample :
    (rift_dk2_get_positions 40 RiftState.init [posReportImu, posReportBad]).2 = false ∧
    (rift_dk2_get_positions 40 RiftState.init [posReportImu, posReportBad]).1.imu_position =
      ⟨1, 0, 0⟩ ∧
    (rift_dk2_get_positions 40 RiftState.init
      [posReportImu, posReportBad]).1.imu_position ≠ RiftState.init.imu_position := by
  have h : (rift_dk2_get_positions 40 RiftState.init
      [posReportImu, posReportBad]).1.imu_position =
      ⟨(sext32 1000000 : ℚ) * (1 / 1000000), (sext32 0 : ℚ) * (1 / 1000000),
       (sext32 0 : ℚ) * (1 / 1000000)⟩ := rfl
  refine ⟨rfl, ?_, ?_⟩
  · rw [h]
    norm_num [sext32]
  · rw [h]
    simp only [RiftState.init, vec3.zero]
    norm_num [sext32]

/-- C4 amended: in both multi-record enumerations, if the responses up to
some point are well formed and the next response carries an embedded index
`≥ num` before the loop has completed `num` records, the enumeration
aborts with an error and the returned state is exactly the fold of the
well-formed prefix — i.e. earlier records remain applied, nothing is
rolled back. -/
theorem C4_amended :
    (∀ (num i : Nat) (st : RiftState) (good : List PositionReport)
        (b : PositionReport) (rest : List PositionReport),
      (∀ r ∈ good, r.index < num) → num ≤ b.index → i + good.length < num →
      positionsLoop num st i (good ++ b :: rest) =
        (good.foldl applyPosReport st, false)) ∧
    (∀ (num i : Nat) (st : RiftState) (good : List LedPatternReport)
        (b : LedPatternReport) (rest : List LedPatternReport),
      (∀ r ∈ good, r.index < num ∧ r.pattern_length = 10 ∧ pattern_valid r.pattern = true) →
      num ≤ b.index → i + good.length < num →
      patternsLoop num st i (good ++ b :: rest) =
        (good.foldl applyPatternReport st, false)) := by
  constructor
  · intro num i st good
    induction good generalizing st i with
    | nil =>
      intro b rest _ hb _
      rw [List.nil_append, List.foldl_nil, positionsLoop_cons, if_pos hb]
    | cons r good ih =>
      intro b rest hgood hb hlen
      have hr : r.index < num := hgood r (List.mem_cons_self r good)
      rw [List.length_cons] at hlen
      rw [List.cons_append, List.foldl_cons, positionsLoop_cons, if_neg (Nat.not_le.mpr hr),
        if_neg (by omega : ¬ i + 1 = num)]
      exact ih (i + 1) (applyPosReport st r)
        b rest (fun x hx => hgood x (List.mem_cons_of_mem r hx)) hb (by omega)
  · intro num i st good
    induction good generalizing st i with
    | nil =>
      intro b rest _ hb _
      rw [List.nil_append, List.foldl_nil, patternsLoop_cons, if_pos hb]
    | cons r good ih =>
      intro b rest hgood hb hlen
      obtain ⟨hr, hplen, hval⟩ := hgood r (List.mem_cons_self r good)
      rw [List.length_cons] at hlen
      rw [List.cons_append, List.foldl_cons, patternsLoop_cons, if_neg (Nat.not_le.mpr hr),
        if_neg (by simp [hplen] : ¬ r.pattern_length ≠ 10),
        if_neg (by simp [hval] : ¬ ¬ pattern_valid r.pattern = true),
        if_neg (by omega : ¬ i + 1 = num)]
      exact ih (i + 1) (applyPatternReport st r)
        b rest (fun x hx => hgood x (List.mem_cons_of_mem r hx)) hb (by omega)

/-- Closed witness for C4 amended: both enumerations at concrete two-record
inputs whose second record is malformed. -/
theorem C4_amended_witness :
    positionsLoop 2 RiftState.init 0 ([posReportImu] ++ posReportBad :: []) =
      ([posReportImu].foldl applyPosReport RiftState.init, false) ∧
    patternsLoop 2 RiftState.init 0
        ([⟨10, 0x55555, 0, 2⟩] ++ (⟨10, 0x55555, 7, 2⟩ : LedPatternReport) :: []) =
      ([(⟨10, 0x55555, 0, 2⟩ : LedPatternReport)].foldl applyPatternReport RiftState.init,
        false) :=
  ⟨C4_amended.1 2 0 RiftState.init [posReportImu] posReportBad []
      (by intro r hr; simp at hr; subst hr; decide) (by decide) (by simp),
   C4_amended.2 2 0 RiftState.init [⟨10, 0x55555, 0, 2⟩] ⟨10, 0x55555, 7, 2⟩ []
      (by intro r hr; simp at hr; subst hr; refine ⟨by decide, by decide, by decide⟩)
      (by decide) (by simp)⟩

/-- C6 is corrected: the direction/magnitude fields of a position record
are scaled by 1e-6 (the code comment says "unknown units"), not by 1e-4 as
claimed.  A raw direction value of 10000 decodes to 1/100, not
`10000 × 1e-4 = 1`. -/
theorem C6_counterexample :
    ((rift_dk2_get_positions 40 RiftState.init [posReportDir]).1.led_directions 0).x =
      1 / 100 ∧
    ((1 : ℚ) / 100) ≠ (10000 : ℚ) * (1 / 10000) := by
  constructor
  · show (sext16 10000 : ℚ) * (1 / 1000000) = 1 / 100
    norm_num [sext16]
  · norm_num

/-- C6 amended: position fields are signed 32-bit micrometers scaled by
1e-6 to meters; direction fields are signed 16-bit values scaled by 1e-6;
in the periodic message, temperature is a signed 16-bit value scaled by
0.01 to °C and the magnetic-field fields are signed 16-bit values scaled
by 1e-4 — all read little-endian. -/
theorem C6_amended (st : RiftState) (r : PositionReport) (priv : Dk2Priv)
    (msg : Nat → Nat) (len : Nat) (hlen : 64 ≤ len) :
    (r.type % 256 = 0 →
      (applyPosReport st r).led_positions r.index =
        ⟨(sext32 r.pos0 : ℚ) * (1 / 1000000), (sext32 r.pos1 : ℚ) * (1 / 1000000),
         (sext32 r.pos2 : ℚ) * (1 / 1000000)⟩ ∧
      (applyPosReport st r).led_directions r.index =
        ⟨(sext16 r.dir0 : ℚ) * (1 / 1000000), (sext16 r.dir1 : ℚ) * (1 / 1000000),
         (sext16 r.dir2 : ℚ) * (1 / 1000000)⟩) ∧
    (r.type % 256 = 1 →
      (applyPosReport st r).imu_position =
        ⟨(sext32 r.pos0 : ℚ) * (1 / 1000000), (sext32 r.pos1 : ℚ) * (1 / 1000000),
         (sext32 r.pos2 : ℚ) * (1 / 1000000)⟩) ∧
    (∃ res, rift_dk2_decode_sensor_message priv msg len = some res ∧
      res.temperature = (sext16 (le16 msg 6) : ℚ) * (1 / 100) ∧
      res.magnetic_field =
        ⟨(sext16 (le16 msg 44) : ℚ) * (1 / 10000), (sext16 (le16 msg 46) : ℚ) * (1 / 10000),
         (sext16 (le16 msg 48) : ℚ) * (1 / 10000)⟩) := by
  refine ⟨?_, ?_, ?_⟩
  · intro ht
    rw [applyPosReport]
    rw [if_pos ht]
    constructor
    · simp
    · simp
  · intro ht
    rw [applyPosReport]
    rw [if_neg (by omega), if_pos ht]
  · rw [rift_dk2_decode_sensor_message, if_neg (by omega)]
    exact ⟨_, rfl, rfl, rfl⟩

/-- Closed witness for C6 amended at the concrete direction record and the
all-zero message. -/
theorem C6_amended_witness :
    ((posReportDir.type % 256 = 0 →
      (applyPosReport RiftState.init posReportDir).led_positions posReportDir.index =
        ⟨(sext32 posReportDir.pos0 : ℚ) * (1 / 1000000),
         (sext32 posReportDir.pos1 : ℚ) * (1 / 1000000),
         (sext32 posReportDir.pos2 : ℚ) * (1 / 1000000)⟩ ∧
      (applyPosReport RiftState.init posReportDir).led_directions posReportDir.index =
        ⟨(sext16 posReportDir.dir0 : ℚ) * (1 / 1000000),
         (sext16 posReportDir.dir1 : ℚ) * (1 / 1000000),
         (sext16 posReportDir.dir2 : ℚ) * (1 / 1000000)⟩)) ∧
    (posReportDir.type % 256 = 1 →
      (applyPosReport RiftState.init posReportDir).imu_position =
        ⟨(sext32 posReportDir.pos0 : ℚ) * (1 / 1000000),
         (sext32 posReportDir.pos1 : ℚ) * (1 / 1000000),
         (sext32 posReportDir.pos2 : ℚ) * (1 / 1000000)⟩) ∧
    (∃ res, rift_dk2_decode_sensor_message ⟨500, 2000, 0⟩ (fun _ => 0) 64 = some res ∧
      res.temperature = (sext16 (le16 (fun _ => 0) 6) : ℚ) * (1 / 100) ∧
      res.magnetic_field =
        ⟨(sext16 (le16 (fun _ => 0) 44) : ℚ) * (1 / 10000),
         (sext16 (le16 (fun _ => 0) 46) : ℚ) * (1 / 10000),
         (sext16 (le16 (fun _ => 0) 48) : ℚ) * (1 / 10000)⟩) :=
  C6_amended RiftState.init posReportDir ⟨500, 2000, 0⟩ (fun _ => 0) 64 (by norm_num)

/-- C5 is corrected: the decoder compares the wraparound-safe timestamp
delta against the configured report interval ±1 (plus a separate
`1000 * num_samples == report_interval` check), NOT against the interval
multiplied by the sample count.  With interval 2000, previous timestamp 0,
a message claiming 2 samples and timestamp 2000, the delta 2000 deviates
from `interval × samples = 4000` by far more than 1, yet no drift event is
logged. -/
theorem C5_counterexample :
    (rift_dk2_decode_sensor_message ⟨500, 2000, 0⟩ driftMsg 64).map DecodeResult.drift_logs =
      some 0 ∧
    1 < |(2000 : Int) - 2000 * 2| := by
  constructor
  · decide
  · decide

/-- C5 amended: for every full-size message, the decoder computes the
timestamp delta by unsigned wraparound-safe 32-bit subtraction and emits
exactly one non-fatal drift log event iff the delta falls outside
`[report_interval − 1, report_interval + 1]` or
`1000 × num_samples ≠ report_interval`; the decoded sample values never
depend on the drift check (they are the same for any private state). -/
theorem C5_amended (priv : Dk2Priv) (msg : Nat → Nat) (len : Nat) (hlen : 64 ≤ len) :
    ∃ res, rift_dk2_decode_sensor_message priv msg len = some res ∧
      res.drift_logs ≤ 1 ∧
      (res.drift_logs = 1 ↔
        (sext32 ((le32 msg 8 + 2 ^ 32 - priv.last_sample_timestamp % 2 ^ 32) % 2 ^ 32) <
            (priv.report_interval : Int) - 1 ∨
         (priv.report_interval : Int) + 1 <
            sext32 ((le32 msg 8 + 2 ^ 32 - priv.last_sample_timestamp % 2 ^ 32) % 2 ^ 32) ∨
         1000 * (msg 3 : Int) ≠ (priv.report_interval : Int))) ∧
      (∀ priv2 : Dk2Priv, ∃ res2,
        rift_dk2_decode_sensor_message priv2 msg len = some res2 ∧
        res2.temperature = res.temperature ∧ res2.time = res.time ∧
        res2.magnetic_field = res.magnetic_field ∧ res2.samples = res.samples) := by
  rw [rift_dk2_decode_sensor_message, if_neg (by omega)]
  refine ⟨_, rfl, ?_, ?_, ?_⟩
  · dsimp only
    split <;> omega
  · dsimp only
    constructor
    · intro h1
      by_contra hc
      rw [if_neg hc] at h1
      exact absurd h1 (by norm_num)
    · intro h1
      rw [if_pos h1]
  · intro priv2
    rw [rift_dk2_decode_sensor_message, if_neg (by omega)]
    exact ⟨_, rfl, rfl, rfl, rfl, rfl⟩

/-- Closed witness for C5 amended at the concrete drift message. -/
theorem C5_amended_witness :
    ∃ res, rift_dk2_decode_sensor_message ⟨500, 2000, 0⟩ driftMsg 64 = some res ∧
      res.drift_logs ≤ 1 ∧
      (res.drift_logs = 1 ↔
        (sext32 ((le32 driftMsg 8 + 2 ^ 32 - (0 : Nat) % 2 ^ 32) % 2 ^ 32) <
            ((2000 : Nat) : Int) - 1 ∨
         ((2000 : Nat) : Int) + 1 <
            sext32 ((le32 driftMsg 8 + 2 ^ 32 - (0 : Nat) % 2 ^ 32) % 2 ^ 32) ∨
         1000 * (driftMsg 3 : Int) ≠ ((2000 : Nat) : Int))) ∧
      (∀ priv2 : Dk2Priv, ∃ res2,
        rift_dk2_decode_sensor_message priv2 driftMsg 64 = some res2 ∧
        res2.temperature = res.temperature ∧ res2.time = res.time ∧
        res2.magnetic_field = res.magnetic_field ∧ res2.samples = res.samples) :=
  C5_amended ⟨500, 2000, 0⟩ driftMsg 64 (by norm_num)

/-- C2 exposes a code bug: `unpack_3x21bit` is documented to unpack three
big-endian signed 21-bit values from 8 bytes, and on the message holding
the packing of (1234, −5678, 9) in `sample[0].accel` (bytes 12..19) the
documented extraction — second half-word at byte offset 16 — yields
exactly (0.1234, −0.5678, 0.0009), within the 1e-4 tolerance.  The code,
however, advances a `__be64 *` by 4, so it loads the second half-word
from byte offset 44 (the magnetometer field) and here decodes z to 0,
off by 0.0009 > 1e-4. -/
theorem C2_unpack_reads_outside_field :
    unpack_3x21bit_fixed accelMsg 12 =
      ⟨(1234 : ℚ) * (1 / 10000), (-5678 : ℚ) * (1 / 10000), (9 : ℚ) * (1 / 10000)⟩ ∧
    |(unpack_3x21bit_fixed accelMsg 12).x - 1234 / 10000| ≤ 1 / 10000 ∧
    |(unpack_3x21bit_fixed accelMsg 12).y - (-5678) / 10000| ≤ 1 / 10000 ∧
    |(unpack_3x21bit_fixed accelMsg 12).z - 9 / 10000| ≤ 1 / 10000 ∧
    (unpack_3x21bit accelMsg 12).z = 0 ∧
    ¬ |(unpack_3x21bit accelMsg 12).z - 9 / 10000| ≤ 1 / 10000 ∧
    unpack_3x21bit accelMsg 12 ≠ unpack_3x21bit_fixed accelMsg 12 := by
  have h1 : asr32 (be32 accelMsg 12) 11 = 1234 := by decide
  have h2 : asr32 (((be32 accelMsg 12 <<< 21) % 2 ^ 32) ||| (be32 accelMsg 16 >>> 11)) 11 =
      -5678 := by decide
  have h3 : asr32 ((be32 accelMsg 16 <<< 10) % 2 ^ 32) 11 = 9 := by decide
  have h4 : asr32 ((be32 accelMsg 44 <<< 10) % 2 ^ 32) 11 = 0 := by decide
  have hfix : unpack_3x21bit_fixed accelMsg 12 =
      ⟨(1234 : ℚ) * (1 / 10000), (-5678 : ℚ) * (1 / 10000), (9 : ℚ) * (1 / 10000)⟩ := by
    show (⟨(asr32 (be32 accelMsg 12) 11 : ℚ) * (1 / 10000),
           (asr32 (((be32 accelMsg 12 <<< 21) % 2 ^ 32) ||| (be32 accelMsg 16 >>> 11)) 11 : ℚ) *
             (1 / 10000),
           (asr32 ((be32 accelMsg 16 <<< 10) % 2 ^ 32) 11 : ℚ) * (1 / 10000)⟩ : vec3) = _
    rw [h1, h2, h3]
    norm_num
  have hcodez : (unpack_3x21bit accelMsg 12).z = 0 := by
    show (asr32 ((be32 accelMsg 44 <<< 10) % 2 ^ 32) 11 : ℚ) * (1 / 10000) = 0
    rw [h4]
    norm_num
  refine ⟨hfix, ?_, ?_, ?_, hcodez, ?_, ?_⟩
  · rw [hfix]; norm_num
  · rw [hfix]; norm_num
  · rw [hfix]; norm_num
  · rw [hcodez]
    simp only [zero_sub, abs_neg]
    rw [abs_of_nonneg (by norm_num : (0 : ℚ) ≤ 9 / 10000)]
    norm_num
  · intro h
    have hz := congrArg vec3.z h
    rw [hcodez, hfix] at hz
    norm_num at hz

/-! ## LED pattern validator/compressor: bit-level lemmas -/

/-- Bits of the validation mask `~0xaaaaa = 0xfff55555` at positions
20..31 are set. -/
theorem maskBit_high : ∀ i < 32, 20 ≤ i → Nat.testBit 0xfff55555 i = true := by decide

/-- Bits of the expected value `0x55555` at positions 20..31 are clear. -/
theorem tgtBit_high : ∀ i < 32, 20 ≤ i → Nat.testBit 0x55555 i = false := by decide

/-- Even bits below 20 of the validation mask are set. -/
theorem maskBit_even : ∀ k < 10, Nat.testBit 0xfff55555 (2 * k) = true := by decide

/-- Even bits below 20 of the expected value are set. -/
theorem tgtBit_even : ∀ k < 10, Nat.testBit 0x55555 (2 * k) = true := by decide

/-- Odd bits below 20 of the validation mask are clear. -/
theorem maskBit_odd : ∀ k < 10, Nat.testBit 0xfff55555 (2 * k + 1) = false := by decide

/-- Odd bits below 20 of the expected value are clear. -/
theorem tgtBit_odd : ∀ k < 10, Nat.testBit 0x55555 (2 * k + 1) = false := by decide

/-- The validity test holds iff the masked value equals `0x55555`. -/
theorem valid_land (n : Nat) : pattern_valid n = true ↔ n &&& 0xfff55555 = 0x55555 := by
  simp [pattern_valid]

/-- Bitwise consequence of a passed validity test. -/
theorem valid_bits (n : Nat) (h : n &&& 0xfff55555 = 0x55555) (i : Nat) :
    (n.testBit i && Nat.testBit 0xfff55555 i) = Nat.testBit 0x55555 i := by
  rw [← Nat.testBit_and, h]

/-- A 32-bit value passing the validity test has no bits at or above 20. -/
theorem valid_high (n : Nat) (h32 : n < 2 ^ 32) (h : n &&& 0xfff55555 = 0x55555) :
    n < 2 ^ 20 := by
  by_contra hn
  push_neg at hn
  obtain ⟨i, hge, hbit⟩ := Nat.ge_two_pow_implies_high_bit_true hn
  have hlt : i < 32 := by
    by_contra hge32
    push_neg at hge32
    have h1 : (2 : Nat) ^ i ≤ n := Nat.testBit_implies_ge hbit
    have h2 : (2 : Nat) ^ 32 ≤ 2 ^ i := Nat.pow_le_pow_right (by norm_num) hge32
    omega
  have hv := valid_bits n h i
  rw [hbit, maskBit_high i hlt hge, tgtBit_high i hlt hge] at hv
  simp at hv

/-- A value passing the validity test has all even bits below 20 set. -/
theorem valid_even (n : Nat) (h : n &&& 0xfff55555 = 0x55555) (k : Nat) (hk : k < 10) :
    n.testBit (2 * k) = true := by
  have hv := valid_bits n h (2 * k)
  rw [maskBit_even k hk, tgtBit_even k hk] at hv
  simpa using hv

/-- A 2-bit symbol is 1 or 3 iff its low bit — the corresponding even bit
of the wire value — is set. -/
theorem symbol_odd_iff (n j : Nat) :
    ((n >>> (2 * j)) % 4 = 1 ∨ (n >>> (2 * j)) % 4 = 3) ↔ n.testBit (2 * j) = true := by
  rw [Nat.testBit_to_div_mod, Nat.shiftRight_eq_div_pow]
  generalize n / 2 ^ (2 * j) = m
  simp only [decide_eq_true_eq]
  omega

/-- Among the symbols 1 and 3, a symbol is 3 iff its high bit — the
corresponding odd bit of the wire value — is set. -/
theorem symbol_three_iff (n j : Nat) (hb : n.testBit (2 * j) = true) :
    (n >>> (2 * j)) % 4 = 3 ↔ n.testBit (2 * j + 1) = true := by
  rw [Nat.testBit_to_div_mod] at hb ⊢
  rw [Nat.shiftRight_eq_div_pow]
  have hdd : n / 2 ^ (2 * j + 1) = n / 2 ^ (2 * j) / 2 := by
    rw [Nat.pow_succ, Nat.div_div_eq_div_mul]
  rw [hdd]
  generalize n / 2 ^ (2 * j) = m at hb ⊢
  simp only [decide_eq_true_eq] at hb ⊢
  omega

/-- Bit `k < 10` of the compressed signature is the odd bit `2k+1` of the
wire value, for every input. -/
theorem compress_testBit (n k : Nat) (hk : k < 10) :
    (pattern_compress n).testBit k = n.testBit (2 * k + 1) := by
  interval_cases k <;>
  · simp [pattern_compress, Nat.testBit_or, Nat.testBit_and, Nat.testBit_shiftRight]
    simp only [Nat.testBit_to_div_mod]
    norm_num

/-- The compressed signature fits in 10 bits. -/
theorem compress_lt (n : Nat) : pattern_compress n < 1024 :=
  lt_of_le_of_lt Nat.and_le_right (by norm_num)

/-- Converse of the validity characterization: a value below `2^20` whose
even bits are all set passes the test. -/
theorem valid_of (n : Nat) (h20 : n < 2 ^ 20) (he : ∀ k, k < 10 → n.testBit (2 * k) = true) :
    n &&& 0xfff55555 = 0x55555 := by
  apply Nat.eq_of_testBit_eq
  intro i
  rw [Nat.testBit_and]
  by_cases hi : i < 20
  · rcases Nat.even_or_odd i with ⟨j, hj⟩ | ⟨j, hj⟩
    · have hj' : i = 2 * j := by omega
      have hjlt : j < 10 := by omega
      rw [hj', maskBit_even j hjlt, tgtBit_even j hjlt, he j hjlt]
      rfl
    · have hj' : i = 2 * j + 1 := by omega
      have hjlt : j < 10 := by omega
      rw [hj', maskBit_odd j hjlt, tgtBit_odd j hjlt, Bool.and_false]
  · push_neg at hi
    have h1 : n.testBit i = false :=
      Nat.testBit_lt_two_pow (lt_of_lt_of_le h20 (Nat.pow_le_pow_right (by norm_num) hi))
    have h2 : Nat.testBit 0x55555 i = false :=
      Nat.testBit_lt_two_pow (lt_of_lt_of_le (by norm_num) (Nat.pow_le_pow_right (by norm_num) hi))
    rw [h1, h2, Bool.false_and]

/-- C3: for every 32-bit wire value, the blink-pattern decoder accepts it
iff it is below `2^20` and each of its ten 2-bit symbols is 1 (dark) or 3
(bright); on acceptance the compressed signature is a 10-bit value whose
k-th bit is set iff the k-th symbol is 3; the all-bright value compresses
to 0x3ff and the all-dark value to 0x000; and an invalid pattern aborts
the enumeration loop with an error. -/
theorem C3_led_pattern_decoder (n : Nat) (h32 : n < 2 ^ 32) :
    (pattern_valid n = true ↔
      (n < 2 ^ 20 ∧ ∀ k, k < 10 → (n >>> (2 * k)) % 4 = 1 ∨ (n >>> (2 * k)) % 4 = 3)) ∧
    (pattern_valid n = true →
      pattern_compress n < 1024 ∧
      ∀ k, k < 10 → ((pattern_compress n).testBit k = true ↔ (n >>> (2 * k)) % 4 = 3)) ∧
    pattern_compress 0xfffff = 0x3ff ∧
    pattern_compress 0x55555 = 0x000 ∧
    (∀ (num i : Nat) (st : RiftState) (r : LedPatternReport) (rest : List LedPatternReport),
      r.index < num → r.pattern_length = 10 → pattern_valid r.pattern = false →
      patternsLoop num st i (r :: rest) = (st, false)) := by
  refine ⟨?_, ?_, by decide, by decide, ?_⟩
  · rw [valid_land]
    constructor
    · intro h
      refine ⟨valid_high n h32 h, ?_⟩
      intro k hk
      exact (symbol_odd_iff n k).mpr (valid_even n h k hk)
    · rintro ⟨h20, hsym⟩
      exact valid_of n h20 (fun k hk => (symbol_odd_iff n k).mp (hsym k hk))
  · intro hv
    refine ⟨compress_lt n, ?_⟩
    intro k hk
    rw [compress_testBit n k hk]
    exact (symbol_three_iff n k (valid_even n ((valid_land n).mp hv) k hk)).symm
  · intro num i st r rest hidx hlen hbad
    rw [patternsLoop_cons, if_neg (Nat.not_le.mpr hidx), if_neg (by simp [hlen]),
      if_pos (by simp [hbad])]

/-- Closed witness for C3 at the wire value with one bright symbol
(symbol 0), `0x55557`. -/
theorem C3_led_pattern_decoder_witness :
    pattern_valid 0x55557 = true ↔
      (0x55557 < 2 ^ 20 ∧
        ∀ k, k < 10 → (0x55557 >>> (2 * k)) % 4 = 1 ∨ (0x55557 >>> (2 * k)) % 4 = 3) :=
  (C3_led_pattern_decoder 0x55557 (by norm_num)).1

end Ouvrt
